import Mathlib

/-!
Verification of `atlasapi/cloud_backup.py`: the `CloudBackupSnapshot` record,
its `from_dict` parser, and the `try_date` helper, shallowly embedded in Lean.

Python dynamic values appearing in the input mapping are modelled by the
`Value` type (strings, integers, booleans, `None`, lists).  A Python `dict`
is modelled as an association list with string keys; `Dict.get` returns
`Value.none` for a missing key, exactly as `dict.get(key)` returns `None`.
Raised Python exceptions are modelled with `Except PyError`; `from_dict`
returns `Except.error e` when the Python code would raise an uncaught
exception of class `e`.
-/

set_option autoImplicit false

namespace Atlas

/-- Python exception classes that the embedded code can raise or catch. -/
inductive PyError where
  | keyError
  | typeError
  | valueError
  | attributeError
  deriving DecidableEq, Repr

/-- Dynamic (JSON-like) Python values stored in the input mapping. -/
inductive Value where
  | str (s : String)
  | int (n : Int)
  | bool (b : Bool)
  | none
  | list (l : List Value)
  deriving Repr

/-- A Python dict with string keys, as an association list. -/
def Dict : Type := List (String × Value)

/-- Models `data_dict.get(k)` / `data_dict.get(k, None)`: the stored value,
or Python `None` (here `Value.none`) when the key is absent. -/
def Dict.get : Dict → String → Value
  | [], _ => Value.none
  | (k2, v) :: rest, k => if k2 = k then v else Dict.get rest k

/-- Key membership in the mapping. -/
def Dict.hasKey : Dict → String → Bool
  | [], _ => false
  | (k2, _) :: rest, k => k2 = k || Dict.hasKey rest k

/-- Modelled from the spec: the `ProviderName` enumeration lives in
`atlasapi.lib`, which is not part of the sources; the spec lists the members
AWS, AZURE, GCP, TENANT, with TENANT the fallback. -/
inductive ProviderName where
  | AWS
  | AZURE
  | GCP
  | TENANT
  deriving DecidableEq, Repr

/-- Modelled from the spec: the `ClusterType` enumeration lives in
`atlasapi.lib`, which is not part of the sources.  The scenario of the spec maps
the source strings "replicaSet"/"shardedCluster", uppercased, to the two
members by name lookup, so the member names must be REPLICASET and
SHARDEDCLUSTER. -/
inductive ClusterType where
  | REPLICASET
  | SHARDEDCLUSTER
  deriving DecidableEq, Repr

/-- The `SnapshotType` enumeration of `cloud_backup.py` (member names as in
the source: ONDEMAND, SCHEDULED). -/
inductive SnapshotType where
  | ONDEMAND
  | SCHEDULED
  deriving DecidableEq, Repr

/-- The `SnapshotStatus` enumeration of `cloud_backup.py`. -/
inductive SnapshotStatus where
  | QUEUED
  | INPROGRESS
  | COMPLETED
  | FAILED
  deriving DecidableEq, Repr

/-- Python `Enum.__getitem__` is a lookup in the member-name dict: a
hashable non-member key raises KeyError; an unhashable key (a list) raises
TypeError before the lookup.  This is `ProviderName[v]` for a dynamic `v`. -/
def providerName_getitem : Value → Except PyError ProviderName
  | .str s =>
      if s = "AWS" then .ok .AWS
      else if s = "AZURE" then .ok .AZURE
      else if s = "GCP" then .ok .GCP
      else if s = "TENANT" then .ok .TENANT
      else .error .keyError
  | .list _ => .error .typeError
  | _ => .error .keyError

/-- Python `SnapshotType[s]` for a string key `s`. -/
def snapshotType_getitem : String → Except PyError SnapshotType
  | "ONDEMAND" => .ok .ONDEMAND
  | "SCHEDULED" => .ok .SCHEDULED
  | _ => .error .keyError

/-- Python `ClusterType[s]` for a string key `s` (members modelled from the spec). -/
def clusterType_getitem : String → Except PyError ClusterType
  | "REPLICASET" => .ok .REPLICASET
  | "SHARDEDCLUSTER" => .ok .SHARDEDCLUSTER
  | _ => .error .keyError

/-- Python `SnapshotStatus[s]` for a string key `s`. -/
def snapshotStatus_getitem : String → Except PyError SnapshotStatus
  | "QUEUED" => .ok .QUEUED
  | "INPROGRESS" => .ok .INPROGRESS
  | "COMPLETED" => .ok .COMPLETED
  | "FAILED" => .ok .FAILED
  | _ => .error .keyError

/-- Python `str.upper` on the characters of the string (ASCII-faithful, which
covers every enumeration member name). -/
def str_upper (s : String) : String :=
  String.mk (s.data.map Char.toUpper)

/-- Python `v.upper()`: defined on strings; any other value (including
`None`) has no `upper` attribute and raises AttributeError. -/
def value_upper : Value → Except PyError String
  | .str s => .ok (str_upper s)
  | _ => .error .attributeError

/-- A parsed timestamp (naive model of a Python `datetime`). -/
structure DateTime where
  year : Nat
  month : Nat
  day : Nat
  hour : Nat
  minute : Nat
  second : Nat
  deriving DecidableEq, Repr

/-- Numeric value of a list of decimal digit characters. -/
def digitsToNat (cs : List Char) : Nat :=
  cs.foldl (fun a c => a * 10 + (c.toNat - 48)) 0

/-- Builds a timestamp from digit groups, validating digits and field
ranges. -/
def mkDateTime (ys ms ds hs ns ss : List Char) : Option DateTime :=
  if (ys ++ ms ++ ds ++ hs ++ ns ++ ss).all Char.isDigit then
    let mo := digitsToNat ms
    let dd := digitsToNat ds
    let hh := digitsToNat hs
    let mi := digitsToNat ns
    let se := digitsToNat ss
    if 1 ≤ mo && mo ≤ 12 && 1 ≤ dd && dd ≤ 31 && hh ≤ 23 && mi ≤ 59 && se ≤ 59 then
      some ⟨digitsToNat ys, mo, dd, hh, mi, se⟩
    else
      Option.none
  else
    Option.none

/-- Models the external `dateutil.parser.parse` on the textual timestamp
shapes this API emits: ISO-8601 `YYYY-MM-DDTHH:MM:SS` with optional trailing
`Z`, or a bare `YYYY-MM-DD` date; any other string fails to parse. -/
def parseDate (s : String) : Option DateTime :=
  match s.toList with
  | [y1, y2, y3, y4, '-', m1, m2, '-', d1, d2, 'T',
     h1, h2, ':', n1, n2, ':', s1, s2, 'Z'] =>
      mkDateTime [y1, y2, y3, y4] [m1, m2] [d1, d2] [h1, h2] [n1, n2] [s1, s2]
  | [y1, y2, y3, y4, '-', m1, m2, '-', d1, d2, 'T',
     h1, h2, ':', n1, n2, ':', s1, s2] =>
      mkDateTime [y1, y2, y3, y4] [m1, m2] [d1, d2] [h1, h2] [n1, n2] [s1, s2]
  | [y1, y2, y3, y4, '-', m1, m2, '-', d1, d2] =>
      mkDateTime [y1, y2, y3, y4] [m1, m2] [d1, d2] ['0', '0'] ['0', '0'] ['0', '0']
  | _ => Option.none

/-- Python `dateutil.parser.parse(v)` on a dynamic argument: a parseable string
yields a datetime, an unparseable string raises ValueError, a non-string
argument raises TypeError. -/
def dateutil_parse : Value → Except PyError DateTime
  | .str s =>
      match parseDate s with
      | some dt => .ok dt
      | Option.none => .error .valueError
  | _ => .error .typeError

/-- The `try_date` helper of `cloud_backup.py`: calls the date parser and
catches `(ValueError, TypeError, AttributeError)`, returning `None` in that
case; any other exception class would propagate. -/
def try_date (v : Value) : Except PyError (Option DateTime) :=
  match dateutil_parse v with
  | .ok dt => .ok (some dt)
  | .error .valueError => .ok Option.none
  | .error .typeError => .ok Option.none
  | .error .attributeError => .ok Option.none
  | .error e => .error e

/-- The `CloudBackupSnapshot` record; fields in the order of the `__init__`
assignments.  Verbatim pass-through fields carry dynamic values; the
enum-typed and datetime-typed fields carry the values `from_dict` actually
supplies. -/
structure CloudBackupSnapshot where
  type : Option ClusterType
  storage_size_bytes : Value
  status : Option SnapshotStatus
  snapshot_type : Option SnapshotType
  snapshot_ids : Value
  replica_set_name : Value
  mongod_version : Value
  members : Value
  masterkey_uuid : Value
  links : Value
  expires_at : Option DateTime
  description : Value
  created_at : Option DateTime
  cloud_provider : Option ProviderName
  id : Value
  deriving Repr

/-- The `CloudBackupSnapshot.__init__` constructor: parameters in the order
of the Python signature, each stored verbatim into its attribute. -/
def CloudBackupSnapshot.init
    (id : Value)
    (cloud_provider : Option ProviderName)
    (created_at : Option DateTime)
    (description : Value)
    (expires_at : Option DateTime)
    (links : Value)
    (masterkey_uuid : Value)
    (members : Value)
    (mongod_version : Value)
    (replica_set_name : Value)
    (snapshot_ids : Value)
    (snapshot_type : Option SnapshotType)
    (status : Option SnapshotStatus)
    (storage_size_bytes : Value)
    (type : Option ClusterType) : CloudBackupSnapshot :=
  { type := type
    storage_size_bytes := storage_size_bytes
    status := status
    snapshot_type := snapshot_type
    snapshot_ids := snapshot_ids
    replica_set_name := replica_set_name
    mongod_version := mongod_version
    members := members
    masterkey_uuid := masterkey_uuid
    links := links
    expires_at := expires_at
    description := description
    created_at := created_at
    cloud_provider := cloud_provider
    id := id }

/-- Lines 142-145 of the source: `ProviderName[data_dict.get("cloudProvider")]`
inside `try: ... except KeyError:` with fallback `ProviderName.TENANT`.
Only KeyError is caught; a TypeError (unhashable value) propagates. -/
def cloud_provider_step (v : Value) : Except PyError ProviderName :=
  match providerName_getitem v with
  | .ok p => .ok p
  | .error .keyError => .ok ProviderName.TENANT
  | .error e => .error e

/-- The `CloudBackupSnapshot.from_dict` classmethod, step for step in source
order; an uncaught exception at any step aborts the parse with that error. -/
def from_dict (data_dict : Dict) : Except PyError CloudBackupSnapshot :=
  let id := Dict.get data_dict "id"
  match cloud_provider_step (Dict.get data_dict "cloudProvider") with
  | .error e => .error e
  | .ok cloud_provider =>
  match try_date (Dict.get data_dict "createdAt") with
  | .error e => .error e
  | .ok created_at =>
  match try_date (Dict.get data_dict "expiresAt") with
  | .error e => .error e
  | .ok expires_at =>
  let description := Dict.get data_dict "description"
  match value_upper (Dict.get data_dict "snapshotType") with
  | .error e => .error e
  | .ok st_name =>
  match snapshotType_getitem st_name with
  | .error e => .error e
  | .ok snapshot_type =>
  match value_upper (Dict.get data_dict "type") with
  | .error e => .error e
  | .ok ct_name =>
  match clusterType_getitem ct_name with
  | .error e => .error e
  | .ok cluster_type =>
  match value_upper (Dict.get data_dict "status") with
  | .error e => .error e
  | .ok ss_name =>
  match snapshotStatus_getitem ss_name with
  | .error e => .error e
  | .ok snapshot_status =>
  let storage_size_bytes := Dict.get data_dict "storageSizeBytes"
  let replica_set_name := Dict.get data_dict "replicaSetName"
  let links := Dict.get data_dict "links"
  let masterkey := Dict.get data_dict "masterKeyUUID"
  let members := Dict.get data_dict "members"
  let mongod_version := Dict.get data_dict "mongodVersion"
  let snapshot_ids := Dict.get data_dict "snapshotIds"
  .ok (CloudBackupSnapshot.init id (some cloud_provider) created_at description
        expires_at links masterkey members mongod_version replica_set_name
        snapshot_ids (some snapshot_type) (some snapshot_status)
        storage_size_bytes (some cluster_type))

/-- The value `try_date` produces: the parsed datetime, or `None` on any
parser failure. -/
def try_date_val (v : Value) : Option DateTime :=
  match dateutil_parse v with
  | .ok dt => some dt
  | .error _ => Option.none

/-- The modelled date parser only fails with ValueError or TypeError. -/
lemma dateutil_parse_error_classes (v : Value) (e : PyError)
    (h : dateutil_parse v = .error e) :
    e = PyError.valueError ∨ e = PyError.typeError := by
  cases v <;> simp only [dateutil_parse] at h
  case str s =>
    cases hp : parseDate s <;> rw [hp] at h
    · exact Or.inl (Except.error.inj h).symm
    · exact Except.noConfusion h
  all_goals exact Or.inr (Except.error.inj h).symm

/-- Lemma: `try_date` never lets an exception escape: it always returns a value. -/
lemma try_date_eq (v : Value) : try_date v = Except.ok (try_date_val v) := by
  unfold try_date try_date_val
  cases h : dateutil_parse v with
  | ok dt => rfl
  | error e =>
    rcases dateutil_parse_error_classes v e h with rfl | rfl <;> rfl

/-- One fatal enum field of `from_dict`: uppercase the raw value, then look
its name up in the enumeration; either step may raise. -/
def enum_step {α : Type} (geti : String → Except PyError α) (v : Value) :
    Except PyError α :=
  match value_upper v with
  | .ok s => geti s
  | .error e => .error e

lemma enum_step_ok {α : Type} (geti : String → Except PyError α) (v : Value)
    (a : α) :
    enum_step geti v = .ok a ↔
      ∃ s, value_upper v = .ok s ∧ geti s = .ok a := by
  unfold enum_step
  cases h : value_upper v <;> simp

/-- Characterization of a successful parse: `from_dict` returns `ok r`
exactly when the four enum steps succeed, and then `r` is the record built
from the values of the mapping. -/
lemma from_dict_ok_iff (d : Dict) (r : CloudBackupSnapshot) :
    from_dict d = .ok r ↔
    ∃ (cp : ProviderName) (st : SnapshotType) (ct : ClusterType)
      (ss : SnapshotStatus),
      cloud_provider_step (Dict.get d "cloudProvider") = .ok cp ∧
      enum_step snapshotType_getitem (Dict.get d "snapshotType") = .ok st ∧
      enum_step clusterType_getitem (Dict.get d "type") = .ok ct ∧
      enum_step snapshotStatus_getitem (Dict.get d "status") = .ok ss ∧
      r = CloudBackupSnapshot.init (Dict.get d "id") (some cp)
            (try_date_val (Dict.get d "createdAt")) (Dict.get d "description")
            (try_date_val (Dict.get d "expiresAt")) (Dict.get d "links")
            (Dict.get d "masterKeyUUID") (Dict.get d "members")
            (Dict.get d "mongodVersion") (Dict.get d "replicaSetName")
            (Dict.get d "snapshotIds") (some st) (some ss)
            (Dict.get d "storageSizeBytes") (some ct) := by
  unfold from_dict enum_step
  rw [try_date_eq (Dict.get d "createdAt"), try_date_eq (Dict.get d "expiresAt")]
  cases h1 : cloud_provider_step (Dict.get d "cloudProvider") <;>
    simp only [h1] <;>
    [skip;
     (cases h2 : value_upper (Dict.get d "snapshotType") <;> simp only [h2])] <;>
    simp_all
  case ok.ok cp s =>
    cases h3 : snapshotType_getitem s <;> simp only [h3] <;>
      [simp;
       (cases h4 : value_upper (Dict.get d "type") <;> simp only [h4])] <;>
      simp_all
    case ok.ok st t =>
      cases h5 : clusterType_getitem t <;> simp only [h5] <;>
        [simp;
         (cases h6 : value_upper (Dict.get d "status") <;> simp only [h6])] <;>
        simp_all
      case ok.ok ct u =>
        cases h7 : snapshotStatus_getitem u <;> simp only [h7] <;> simp_all
        exact eq_comm

/-- A missing key reads as `Value.none`. -/
lemma Dict.get_eq_none_of_not_hasKey (d : Dict) (k : String)
    (h : Dict.hasKey d k = false) : Dict.get d k = Value.none := by
  induction d with
  | nil => rfl
  | cons p rest ih =>
    obtain ⟨k2, v⟩ := p
    simp only [Dict.hasKey, Bool.or_eq_false_iff, decide_eq_false_iff_not] at h
    simp only [Dict.get, if_neg h.1]
    exact ih h.2

/-- A fatal enum step cannot succeed when the raw value is `None` (no
`upper` attribute) or a string whose uppercasing is not a member name. -/
lemma enum_step_bad {α : Type} (geti : String → Except PyError α) (v : Value)
    (h : v = Value.none ∨
      ∃ s, v = Value.str s ∧ geti (str_upper s) = .error PyError.keyError)
    (a : α) : enum_step geti v ≠ .ok a := by
  rcases h with rfl | ⟨s, rfl, hg⟩
  · simp [enum_step, value_upper]
  · simp [enum_step, value_upper, hg]

/-- On a non-list (hashable) value, `ProviderName[v]` either succeeds or
raises KeyError, never TypeError. -/
lemma providerName_getitem_cases (v : Value)
    (h : ∀ l, v ≠ Value.list l) :
    (∃ p, providerName_getitem v = .ok p) ∨
      providerName_getitem v = .error PyError.keyError := by
  cases v with
  | list l => exact absurd rfl (h l)
  | str s =>
    dsimp only [providerName_getitem]
    split_ifs <;> first | exact Or.inl ⟨_, rfl⟩ | exact Or.inr rfl
  | int n => exact Or.inr rfl
  | bool b => exact Or.inr rfl
  | none => exact Or.inr rfl

/-- The guarded cloudProvider step always succeeds on a hashable value. -/
lemma cloud_provider_step_ok_of_not_list (v : Value)
    (h : ∀ l, v ≠ Value.list l) :
    ∃ cp, cloud_provider_step v = .ok cp := by
  unfold cloud_provider_step
  rcases providerName_getitem_cases v h with ⟨p, hp⟩ | hp <;> rw [hp]
  · exact ⟨p, rfl⟩
  · exact ⟨.TENANT, rfl⟩

/-- C1: if the `snapshotType`, `type`, or `status` key of the input mapping is
missing, holds null, or holds a string that after uppercasing does not name
a member of the corresponding enumeration, then `from_dict` raises an error
that propagates to the caller and returns no (partial) record. -/
theorem from_dict_fatal_on_bad_enum_field (d : Dict)
    (h : (Dict.get d "snapshotType" = Value.none ∨
            ∃ s, Dict.get d "snapshotType" = Value.str s ∧
              snapshotType_getitem (str_upper s) = .error PyError.keyError) ∨
         (Dict.get d "type" = Value.none ∨
            ∃ s, Dict.get d "type" = Value.str s ∧
              clusterType_getitem (str_upper s) = .error PyError.keyError) ∨
         (Dict.get d "status" = Value.none ∨
            ∃ s, Dict.get d "status" = Value.str s ∧
              snapshotStatus_getitem (str_upper s) = .error PyError.keyError)) :
    ∃ e, from_dict d = Except.error e := by
  cases hfd : from_dict d with
  | error e => exact ⟨e, rfl⟩
  | ok r =>
    exfalso
    rcases (from_dict_ok_iff d r).1 hfd with ⟨cp, st, ct, ss, _, h2, h3, h4, _⟩
    rcases h with hb | hb | hb
    · exact enum_step_bad _ _ hb st h2
    · exact enum_step_bad _ _ hb ct h3
    · exact enum_step_bad _ _ hb ss h4

/-- C1 witness: a mapping with well-formed `type` and `status` but no
`snapshotType` key makes `from_dict` propagate an error. -/
theorem from_dict_fatal_on_bad_enum_field_witness :
    ∃ e, from_dict [("type", Value.str "replicaSet"),
                    ("status", Value.str "completed")] = Except.error e :=
  from_dict_fatal_on_bad_enum_field _ (Or.inl (Or.inl (by rfl)))

/-- C2 counterexample: with `cloudProvider` present and bound to a list
(which is not the name of any ProviderName member), the enum lookup raises
TypeError, which the `except KeyError` handler does not catch, so the step
does not fall back to TENANT and `from_dict` aborts — against the claim
that every absent-or-unrecognized value yields the TENANT default. -/
theorem cloud_provider_unhashable_value_aborts_parse :
    Dict.get [("cloudProvider", Value.list []),
              ("snapshotType", Value.str "scheduled"),
              ("type", Value.str "replicaSet"),
              ("status", Value.str "completed")] "cloudProvider"
        = Value.list [] ∧
    cloud_provider_step (Value.list []) = Except.error PyError.typeError ∧
    from_dict [("cloudProvider", Value.list []),
               ("snapshotType", Value.str "scheduled"),
               ("type", Value.str "replicaSet"),
               ("status", Value.str "completed")]
        = Except.error PyError.typeError :=
  ⟨by rfl, by rfl, by rfl⟩

/-- C2 (amended): whenever the `ProviderName` lookup of the value under
`cloudProvider` raises KeyError — the key is absent, null, or holds any
hashable value that is not a member name — the step falls back to
`ProviderName.TENANT`, and a record returned by `from_dict` carries
`cloud_provider = TENANT`.  (An unhashable value, such as a list, raises
TypeError instead, which propagates.) -/
theorem cloud_provider_fallback_to_tenant (d : Dict) (r : CloudBackupSnapshot)
    (hk : providerName_getitem (Dict.get d "cloudProvider")
            = .error PyError.keyError) :
    cloud_provider_step (Dict.get d "cloudProvider")
        = .ok ProviderName.TENANT ∧
    (from_dict d = .ok r → r.cloud_provider = some ProviderName.TENANT) := by
  have hstep : cloud_provider_step (Dict.get d "cloudProvider")
      = .ok ProviderName.TENANT := by
    unfold cloud_provider_step
    rw [hk]
  refine ⟨hstep, fun hfd => ?_⟩
  rcases (from_dict_ok_iff d r).1 hfd with ⟨cp, st, ct, ss, h1, _, _, _, rfl⟩
  rw [hstep] at h1
  injection h1 with h1
  subst h1
  rfl

/-- C2 witness input: `cloudProvider` bound to an unrecognized string. -/
def c2_input : Dict :=
  [("cloudProvider", Value.str "DIGITALOCEAN"),
   ("snapshotType", Value.str "scheduled"),
   ("type", Value.str "replicaSet"),
   ("status", Value.str "completed")]

/-- C2 witness record: what `from_dict` returns on `c2_input`. -/
def c2_record : CloudBackupSnapshot :=
  ⟨some .REPLICASET, Value.none, some .COMPLETED, some .SCHEDULED,
   Value.none, Value.none, Value.none, Value.none, Value.none, Value.none,
   Option.none, Value.none, Option.none, some .TENANT, Value.none⟩

/-- C2 (amended) witness: on an unrecognized provider string the step
yields TENANT and the parsed record carries TENANT. -/
theorem cloud_provider_fallback_to_tenant_witness :
    cloud_provider_step (Dict.get c2_input "cloudProvider")
        = .ok ProviderName.TENANT ∧
    c2_record.cloud_provider = some ProviderName.TENANT :=
  ⟨(cloud_provider_fallback_to_tenant c2_input c2_record (by rfl)).1,
   (cloud_provider_fallback_to_tenant c2_input c2_record (by rfl)).2 (by rfl)⟩

/-- C3: any failure of the date parser (malformed string, wrong type,
missing value — all raising ValueError/TypeError/AttributeError) is caught
by `try_date`, which returns null instead of propagating, and the
corresponding `created_at`/`expires_at` field of a parsed record is null. -/
theorem try_date_failure_yields_null :
    (∀ v e, dateutil_parse v = .error e →
      try_date v = Except.ok Option.none) ∧
    (∀ d r, from_dict d = .ok r →
      (∀ e, dateutil_parse (Dict.get d "createdAt") = .error e →
        r.created_at = Option.none) ∧
      (∀ e, dateutil_parse (Dict.get d "expiresAt") = .error e →
        r.expires_at = Option.none)) := by
  constructor
  · intro v e h
    rw [try_date_eq]
    unfold try_date_val
    rw [h]
  · intro d r hfd
    rcases (from_dict_ok_iff d r).1 hfd with ⟨cp, st, ct, ss, _, _, _, _, rfl⟩
    constructor
    · intro e h
      show try_date_val (Dict.get d "createdAt") = Option.none
      unfold try_date_val
      rw [h]
    · intro e h
      show try_date_val (Dict.get d "expiresAt") = Option.none
      unfold try_date_val
      rw [h]

/-- C3 witness input: a malformed `createdAt`. -/
def c3_input : Dict :=
  [("createdAt", Value.str "not-a-date"),
   ("snapshotType", Value.str "scheduled"),
   ("type", Value.str "replicaSet"),
   ("status", Value.str "completed")]

/-- C3 witness record: what `from_dict` returns on `c3_input`. -/
def c3_record : CloudBackupSnapshot :=
  ⟨some .REPLICASET, Value.none, some .COMPLETED, some .SCHEDULED,
   Value.none, Value.none, Value.none, Value.none, Value.none, Value.none,
   Option.none, Value.none, Option.none, some .TENANT, Value.none⟩

/-- C3 witness: parsing "not-a-date" fails with ValueError; `try_date`
swallows it and the `created_at` field of the record is null. -/
theorem try_date_failure_yields_null_witness :
    try_date (Value.str "not-a-date") = Except.ok Option.none ∧
    c3_record.created_at = Option.none :=
  ⟨try_date_failure_yields_null.1 (Value.str "not-a-date")
      PyError.valueError (by rfl),
   (try_date_failure_yields_null.2 c3_input c3_record (by rfl)).1
      PyError.valueError (by rfl)⟩

/-- C4 counterexample: a mapping whose `snapshotType`, `type`, and `status`
values are all well-formed member names up to letter case, yet `from_dict`
does not succeed, because the unrelated `cloudProvider` key holds a list
and the provider lookup raises an uncaught TypeError. -/
theorem good_enum_fields_do_not_guarantee_parse :
    snapshotType_getitem (str_upper "onDemand")
        = Except.ok SnapshotType.ONDEMAND ∧
    clusterType_getitem (str_upper "shardedCluster")
        = Except.ok ClusterType.SHARDEDCLUSTER ∧
    snapshotStatus_getitem (str_upper "queued")
        = Except.ok SnapshotStatus.QUEUED ∧
    from_dict [("snapshotType", Value.str "onDemand"),
               ("type", Value.str "shardedCluster"),
               ("status", Value.str "queued"),
               ("cloudProvider", Value.list [Value.str "AWS"])]
        = Except.error PyError.typeError :=
  ⟨by rfl, by rfl, by rfl, by rfl⟩

/-- C4 (amended): if the `snapshotType`, `type`, and `status` values are
strings naming members of the respective enumerations up to letter case,
and the `cloudProvider` value is not an unhashable value (a list), then
`from_dict` succeeds and the `snapshot_type`, `type`, and `status`
fields of the record equal the members named by those values. -/
theorem from_dict_ok_on_good_enum_fields (d : Dict)
    (s t u : String) (st : SnapshotType) (ct : ClusterType)
    (ss : SnapshotStatus)
    (hs : Dict.get d "snapshotType" = Value.str s)
    (hst : snapshotType_getitem (str_upper s) = .ok st)
    (ht : Dict.get d "type" = Value.str t)
    (hct : clusterType_getitem (str_upper t) = .ok ct)
    (hu : Dict.get d "status" = Value.str u)
    (hss : snapshotStatus_getitem (str_upper u) = .ok ss)
    (hcp : ∀ l, Dict.get d "cloudProvider" ≠ Value.list l) :
    ∃ r, from_dict d = .ok r ∧ r.snapshot_type = some st ∧
      r.type = some ct ∧ r.status = some ss := by
  obtain ⟨cp, hcp2⟩ := cloud_provider_step_ok_of_not_list _ hcp
  refine ⟨_, (from_dict_ok_iff d _).2 ⟨cp, st, ct, ss, hcp2, ?_, ?_, ?_, rfl⟩,
    rfl, rfl, rfl⟩
  · rw [enum_step_ok]
    exact ⟨str_upper s, by rw [hs]; rfl, hst⟩
  · rw [enum_step_ok]
    exact ⟨str_upper t, by rw [ht]; rfl, hct⟩
  · rw [enum_step_ok]
    exact ⟨str_upper u, by rw [hu]; rfl, hss⟩

/-- C4 witness: mixed-case member names parse to the named members. -/
theorem from_dict_ok_on_good_enum_fields_witness :
    ∃ r, from_dict [("snapshotType", Value.str "onDemand"),
                    ("type", Value.str "replicaSet"),
                    ("status", Value.str "failed")] = .ok r ∧
      r.snapshot_type = some SnapshotType.ONDEMAND ∧
      r.type = some ClusterType.REPLICASET ∧
      r.status = some SnapshotStatus.FAILED :=
  from_dict_ok_on_good_enum_fields _ "onDemand" "replicaSet" "failed"
    SnapshotType.ONDEMAND ClusterType.REPLICASET SnapshotStatus.FAILED
    (by rfl) (by rfl) (by rfl) (by rfl) (by rfl) (by rfl)
    (fun l h => by simp [Dict.get] at h)

/-- The scenario payload of the spec (links omitted there as well). -/
def scenario_input : Dict :=
  [("snapshotType", Value.str "scheduled"),
   ("type", Value.str "replicaSet"),
   ("status", Value.str "completed"),
   ("cloudProvider", Value.str "AWS"),
   ("createdAt", Value.str "2021-07-31T02:02:25Z"),
   ("expiresAt", Value.str "2021-08-28T02:03:22Z"),
   ("id", Value.str "6104a8c6c1b4ef7788b5d8f0"),
   ("storageSizeBytes", Value.int 14380134400),
   ("replicaSetName", Value.str "pyAtlasTestCluster"),
   ("mongodVersion", Value.str "4.2.15")]

/-- C5: on the scenario payload of the spec, `from_dict` returns a record with
snapshot_type = SCHEDULED, type = the replica-set cluster type,
status = COMPLETED, cloud_provider = AWS, created_at = 2021-07-31T02:02:25Z,
and storage_size_bytes = 14380134400. -/
theorem from_dict_scenario_payload :
    ∃ r, from_dict scenario_input = .ok r ∧
      r.snapshot_type = some SnapshotType.SCHEDULED ∧
      r.type = some ClusterType.REPLICASET ∧
      r.status = some SnapshotStatus.COMPLETED ∧
      r.cloud_provider = some ProviderName.AWS ∧
      r.created_at = some ⟨2021, 7, 31, 2, 2, 25⟩ ∧
      r.storage_size_bytes = Value.int 14380134400 :=
  ⟨{ type := some .REPLICASET
     storage_size_bytes := .int 14380134400
     status := some .COMPLETED
     snapshot_type := some .SCHEDULED
     snapshot_ids := .none
     replica_set_name := .str "pyAtlasTestCluster"
     mongod_version := .str "4.2.15"
     members := .none
     masterkey_uuid := .none
     links := .none
     expires_at := some ⟨2021, 8, 28, 2, 3, 22⟩
     description := .none
     created_at := some ⟨2021, 7, 31, 2, 2, 25⟩
     cloud_provider := some .AWS
     id := .str "6104a8c6c1b4ef7788b5d8f0" },
   by rfl, rfl, rfl, rfl, rfl, rfl, rfl⟩

/-- C6: a record returned by `from_dict` carries the values of the mapping under
`id`, `description`, `storageSizeBytes`, `replicaSetName`, `links`,
`masterKeyUUID`, `members`, `mongodVersion`, and `snapshotIds` verbatim,
and each such field is null when its key is missing. -/
theorem from_dict_passthrough_fields (d : Dict) (r : CloudBackupSnapshot)
    (h : from_dict d = .ok r) :
    r.id = Dict.get d "id" ∧
    r.description = Dict.get d "description" ∧
    r.storage_size_bytes = Dict.get d "storageSizeBytes" ∧
    r.replica_set_name = Dict.get d "replicaSetName" ∧
    r.links = Dict.get d "links" ∧
    r.masterkey_uuid = Dict.get d "masterKeyUUID" ∧
    r.members = Dict.get d "members" ∧
    r.mongod_version = Dict.get d "mongodVersion" ∧
    r.snapshot_ids = Dict.get d "snapshotIds" ∧
    (Dict.hasKey d "id" = false → r.id = Value.none) ∧
    (Dict.hasKey d "description" = false → r.description = Value.none) ∧
    (Dict.hasKey d "storageSizeBytes" = false →
      r.storage_size_bytes = Value.none) ∧
    (Dict.hasKey d "replicaSetName" = false →
      r.replica_set_name = Value.none) ∧
    (Dict.hasKey d "links" = false → r.links = Value.none) ∧
    (Dict.hasKey d "masterKeyUUID" = false →
      r.masterkey_uuid = Value.none) ∧
    (Dict.hasKey d "members" = false → r.members = Value.none) ∧
    (Dict.hasKey d "mongodVersion" = false →
      r.mongod_version = Value.none) ∧
    (Dict.hasKey d "snapshotIds" = false → r.snapshot_ids = Value.none) := by
  rcases (from_dict_ok_iff d r).1 h with ⟨cp, st, ct, ss, _, _, _, _, rfl⟩
  refine ⟨rfl, rfl, rfl, rfl, rfl, rfl, rfl, rfl, rfl,
    ?_, ?_, ?_, ?_, ?_, ?_, ?_, ?_, ?_⟩ <;>
    exact fun hk => Dict.get_eq_none_of_not_hasKey d _ hk

/-- C6 witness input: `links` present, the other pass-through keys absent. -/
def c6_input : Dict :=
  [("links", Value.list [Value.str "self"]),
   ("snapshotType", Value.str "scheduled"),
   ("type", Value.str "replicaSet"),
   ("status", Value.str "completed")]

/-- C6 witness record: what `from_dict` returns on `c6_input`. -/
def c6_record : CloudBackupSnapshot :=
  ⟨some .REPLICASET, Value.none, some .COMPLETED, some .SCHEDULED,
   Value.none, Value.none, Value.none, Value.none, Value.none,
   Value.list [Value.str "self"], Option.none, Value.none, Option.none,
   some .TENANT, Value.none⟩

/-- C6 witness: `links` is copied verbatim and the missing `members` key
gives a null field. -/
theorem from_dict_passthrough_fields_witness :
    c6_record.links = Dict.get c6_input "links" ∧
    c6_record.members = Value.none := by
  obtain ⟨h1, h2, h3, h4, h5, h6, h7, h8, h9,
    g1, g2, g3, g4, g5, g6, g7, g8, g9⟩ :=
    from_dict_passthrough_fields c6_input c6_record (by rfl)
  exact ⟨h5, g7 (by rfl)⟩

/-- C7: the constructor stores each of its fifteen arguments verbatim into
the corresponding attribute, with no validation or coercion. -/
theorem init_stores_arguments_verbatim
    (id : Value) (cloud_provider : Option ProviderName)
    (created_at : Option DateTime) (description : Value)
    (expires_at : Option DateTime) (links : Value)
    (masterkey_uuid : Value) (members : Value) (mongod_version : Value)
    (replica_set_name : Value) (snapshot_ids : Value)
    (snapshot_type : Option SnapshotType) (status : Option SnapshotStatus)
    (storage_size_bytes : Value) (type : Option ClusterType) :
    (CloudBackupSnapshot.init id cloud_provider created_at description
        expires_at links masterkey_uuid members mongod_version
        replica_set_name snapshot_ids snapshot_type status
        storage_size_bytes type).id = id ∧
    (CloudBackupSnapshot.init id cloud_provider created_at description
        expires_at links masterkey_uuid members mongod_version
        replica_set_name snapshot_ids snapshot_type status
        storage_size_bytes type).cloud_provider = cloud_provider ∧
    (CloudBackupSnapshot.init id cloud_provider created_at description
        expires_at links masterkey_uuid members mongod_version
        replica_set_name snapshot_ids snapshot_type status
        storage_size_bytes type).created_at = created_at ∧
    (CloudBackupSnapshot.init id cloud_provider created_at description
        expires_at links masterkey_uuid members mongod_version
        replica_set_name snapshot_ids snapshot_type status
        storage_size_bytes type).description = description ∧
    (CloudBackupSnapshot.init id cloud_provider created_at description
        expires_at links masterkey_uuid members mongod_version
        replica_set_name snapshot_ids snapshot_type status
        storage_size_bytes type).expires_at = expires_at ∧
    (CloudBackupSnapshot.init id cloud_provider created_at description
        expires_at links masterkey_uuid members mongod_version
        replica_set_name snapshot_ids snapshot_type status
        storage_size_bytes type).links = links ∧
    (CloudBackupSnapshot.init id cloud_provider created_at description
        expires_at links masterkey_uuid members mongod_version
        replica_set_name snapshot_ids snapshot_type status
        storage_size_bytes type).masterkey_uuid = masterkey_uuid ∧
    (CloudBackupSnapshot.init id cloud_provider created_at description
        expires_at links masterkey_uuid members mongod_version
        replica_set_name snapshot_ids snapshot_type status
        storage_size_bytes type).members = members ∧
    (CloudBackupSnapshot.init id cloud_provider created_at description
        expires_at links masterkey_uuid members mongod_version
        replica_set_name snapshot_ids snapshot_type status
        storage_size_bytes type).mongod_version = mongod_version ∧
    (CloudBackupSnapshot.init id cloud_provider created_at description
        expires_at links masterkey_uuid members mongod_version
        replica_set_name snapshot_ids snapshot_type status
        storage_size_bytes type).replica_set_name = replica_set_name ∧
    (CloudBackupSnapshot.init id cloud_provider created_at description
        expires_at links masterkey_uuid members mongod_version
        replica_set_name snapshot_ids snapshot_type status
        storage_size_bytes type).snapshot_ids = snapshot_ids ∧
    (CloudBackupSnapshot.init id cloud_provider created_at description
        expires_at links masterkey_uuid members mongod_version
        replica_set_name snapshot_ids snapshot_type status
        storage_size_bytes type).snapshot_type = snapshot_type ∧
    (CloudBackupSnapshot.init id cloud_provider created_at description
        expires_at links masterkey_uuid members mongod_version
        replica_set_name snapshot_ids snapshot_type status
        storage_size_bytes type).status = status ∧
    (CloudBackupSnapshot.init id cloud_provider created_at description
        expires_at links masterkey_uuid members mongod_version
        replica_set_name snapshot_ids snapshot_type status
        storage_size_bytes type).storage_size_bytes = storage_size_bytes ∧
    (CloudBackupSnapshot.init id cloud_provider created_at description
        expires_at links masterkey_uuid members mongod_version
        replica_set_name snapshot_ids snapshot_type status
        storage_size_bytes type).type = type :=
  ⟨rfl, rfl, rfl, rfl, rfl, rfl, rfl, rfl, rfl, rfl, rfl, rfl, rfl, rfl, rfl⟩

/-- C8: two successful parses of the same mapping yield records whose
fifteen fields are pairwise equal — the parse is deterministic. -/
theorem from_dict_deterministic (d : Dict) (r1 r2 : CloudBackupSnapshot)
    (h1 : from_dict d = .ok r1) (h2 : from_dict d = .ok r2) :
    r1.id = r2.id ∧ r1.cloud_provider = r2.cloud_provider ∧
    r1.created_at = r2.created_at ∧ r1.description = r2.description ∧
    r1.expires_at = r2.expires_at ∧ r1.links = r2.links ∧
    r1.masterkey_uuid = r2.masterkey_uuid ∧ r1.members = r2.members ∧
    r1.mongod_version = r2.mongod_version ∧
    r1.replica_set_name = r2.replica_set_name ∧
    r1.snapshot_ids = r2.snapshot_ids ∧
    r1.snapshot_type = r2.snapshot_type ∧ r1.status = r2.status ∧
    r1.storage_size_bytes = r2.storage_size_bytes ∧ r1.type = r2.type := by
  rw [h1] at h2
  injection h2 with h2
  subst h2
  exact ⟨rfl, rfl, rfl, rfl, rfl, rfl, rfl, rfl, rfl, rfl, rfl, rfl, rfl,
    rfl, rfl⟩

/-- C8 witness input. -/
def c8_input : Dict :=
  [("snapshotType", Value.str "SCHEDULED"),
   ("type", Value.str "REPLICASET"),
   ("status", Value.str "FAILED"),
   ("mongodVersion", Value.str "4.2.15")]

/-- C8 witness record: what `from_dict` returns on `c8_input`. -/
def c8_record : CloudBackupSnapshot :=
  ⟨some .REPLICASET, Value.none, some .FAILED, some .SCHEDULED,
   Value.none, Value.none, Value.str "4.2.15", Value.none, Value.none,
   Value.none, Option.none, Value.none, Option.none, some .TENANT,
   Value.none⟩

/-- C8 witness: determinism instantiated on a concrete parse. -/
theorem from_dict_deterministic_witness :
    c8_record.id = c8_record.id ∧
    c8_record.cloud_provider = c8_record.cloud_provider ∧
    c8_record.created_at = c8_record.created_at ∧
    c8_record.description = c8_record.description ∧
    c8_record.expires_at = c8_record.expires_at ∧
    c8_record.links = c8_record.links ∧
    c8_record.masterkey_uuid = c8_record.masterkey_uuid ∧
    c8_record.members = c8_record.members ∧
    c8_record.mongod_version = c8_record.mongod_version ∧
    c8_record.replica_set_name = c8_record.replica_set_name ∧
    c8_record.snapshot_ids = c8_record.snapshot_ids ∧
    c8_record.snapshot_type = c8_record.snapshot_type ∧
    c8_record.status = c8_record.status ∧
    c8_record.storage_size_bytes = c8_record.storage_size_bytes ∧
    c8_record.type = c8_record.type :=
  from_dict_deterministic c8_input c8_record c8_record (by rfl) (by rfl)

/-- C9: a record returned by a successful `from_dict` never carries null in
`cloud_provider`, `snapshot_type`, `status`, or `type`: the provider field
is always some `ProviderName` member and the three fatal lookups either
produce a member or abort the parse. -/
theorem from_dict_enum_fields_present (d : Dict) (r : CloudBackupSnapshot)
    (h : from_dict d = .ok r) :
    r.cloud_provider.isSome = true ∧ r.snapshot_type.isSome = true ∧
    r.status.isSome = true ∧ r.type.isSome = true := by
  rcases (from_dict_ok_iff d r).1 h with ⟨cp, st, ct, ss, _, _, _, _, rfl⟩
  exact ⟨rfl, rfl, rfl, rfl⟩

/-- C9 witness input. -/
def c9_input : Dict :=
  [("snapshotType", Value.str "onDemand"),
   ("type", Value.str "shardedCluster"),
   ("status", Value.str "inProgress")]

/-- C9 witness record: what `from_dict` returns on `c9_input`. -/
def c9_record : CloudBackupSnapshot :=
  ⟨some .SHARDEDCLUSTER, Value.none, some .INPROGRESS, some .ONDEMAND,
   Value.none, Value.none, Value.none, Value.none, Value.none, Value.none,
   Option.none, Value.none, Option.none, some .TENANT, Value.none⟩

/-- C9 witness: the four enum-backed fields are populated on a concrete
successful parse. -/
theorem from_dict_enum_fields_present_witness :
    c9_record.cloud_provider.isSome = true ∧
    c9_record.snapshot_type.isSome = true ∧
    c9_record.status.isSome = true ∧ c9_record.type.isSome = true :=
  from_dict_enum_fields_present c9_input c9_record (by rfl)

/-- C10: the result of `from_dict` depends only on the values read under
the fifteen recognized keys — two mappings agreeing on those keys give
identical results (same error, or records with equal fields), whatever
extra keys either mapping carries. -/
theorem from_dict_depends_only_on_recognized_keys (d1 d2 : Dict)
    (e1 : Dict.get d1 "id" = Dict.get d2 "id")
    (e2 : Dict.get d1 "cloudProvider" = Dict.get d2 "cloudProvider")
    (e3 : Dict.get d1 "createdAt" = Dict.get d2 "createdAt")
    (e4 : Dict.get d1 "expiresAt" = Dict.get d2 "expiresAt")
    (e5 : Dict.get d1 "description" = Dict.get d2 "description")
    (e6 : Dict.get d1 "snapshotType" = Dict.get d2 "snapshotType")
    (e7 : Dict.get d1 "type" = Dict.get d2 "type")
    (e8 : Dict.get d1 "status" = Dict.get d2 "status")
    (e9 : Dict.get d1 "storageSizeBytes" = Dict.get d2 "storageSizeBytes")
    (e10 : Dict.get d1 "replicaSetName" = Dict.get d2 "replicaSetName")
    (e11 : Dict.get d1 "links" = Dict.get d2 "links")
    (e12 : Dict.get d1 "masterKeyUUID" = Dict.get d2 "masterKeyUUID")
    (e13 : Dict.get d1 "members" = Dict.get d2 "members")
    (e14 : Dict.get d1 "mongodVersion" = Dict.get d2 "mongodVersion")
    (e15 : Dict.get d1 "snapshotIds" = Dict.get d2 "snapshotIds") :
    from_dict d1 = from_dict d2 := by
  unfold from_dict
  rw [e1, e2, e3, e4, e5, e6, e7, e8, e9, e10, e11, e12, e13, e14, e15]

/-- C10 witness: adding an unrecognized key leaves the parse unchanged. -/
theorem from_dict_depends_only_on_recognized_keys_witness :
    from_dict [("snapshotType", Value.str "scheduled"),
               ("type", Value.str "replicaSet"),
               ("status", Value.str "completed")] =
    from_dict [("unrecognizedKey", Value.int 7),
               ("snapshotType", Value.str "scheduled"),
               ("type", Value.str "replicaSet"),
               ("status", Value.str "completed")] :=
  from_dict_depends_only_on_recognized_keys _ _
    (by rfl) (by rfl) (by rfl) (by rfl) (by rfl) (by rfl) (by rfl) (by rfl)
    (by rfl) (by rfl) (by rfl) (by rfl) (by rfl) (by rfl) (by rfl)

end Atlas
